import Mathlib

/-!
Verification development for the inventor-to-step-action repository.

The two scripts relevant to the claims are embedded shallowly:

* `.github/scripts/slice_with_prusa.py` — the metrics extractor.  Its pure
  calculation core (`slice_with_prusa`, `extract_metrics`) is embedded as
  functions over an abstract environment `SliceEnv`: file-existence flags,
  slicer exit codes, and the results of the regex searches over the slicer
  console output and the generated G-code are the inputs; the produced
  metrics record and the list of emitted warnings are the outputs.
  Floating-point numbers are modelled as exact rationals; Python `round`
  (banker's rounding) is `pyRound1`.

* `.github/scripts/generate_bom.py` — the BOM aggregator.  File-system
  access is abstracted into `BomInput` (the candidate record files with
  their parse results); the aggregation loop, validation, totals, the
  part-name sort and the return-value discipline are embedded faithfully,
  including the fact that Python record values are dynamically typed
  (`PyVal`) and that sorting records whose part-name keys have mixed types
  raises a `TypeError` that the surrounding handler turns into a `None`
  return.

OS-level failures that do not depend on the input data (directory creation
errors, file write errors, cleanup errors) are abstracted as succeeding.
-/

/-- Model of a dynamically typed Python value as it appears in the JSON
record files and configuration: a number (int/float, modelled exactly as a
rational), a string, a boolean, or `None`. -/
inductive PyVal where
  | num (q : ℚ)
  | str (s : String)
  | bool (b : Bool)
  | null
  deriving DecidableEq, Repr

/-- Python truthiness of a `PyVal` (`bool(v)`): zero, the empty string,
`False` and `None` are falsy. -/
def pyTruthy : PyVal → Bool
  | .num q => q ≠ 0
  | .str s => s ≠ ""
  | .bool b => b
  | .null => false

/-- Digits of a numeric literal folded into a natural number. -/
def digitsToNat (l : List Char) : ℕ :=
  l.foldl (fun a c => a * 10 + (c.toNat - 48)) 0

/-- Leading and trailing whitespace removed from a character list (the
whitespace stripping `float` applies to its string argument). -/
def trimChars (l : List Char) : List Char :=
  ((l.dropWhile (·.isWhitespace)).reverse.dropWhile (·.isWhitespace)).reverse

/-- Model of Python `float(s)` on a string, restricted to plain decimal
literals (optional sign, digits, optional fractional part, surrounding
whitespace allowed) — the shape the record files can contain; anything
else fails as Python raises `ValueError`. -/
def parseFloatString (s : String) : Option ℚ :=
  let t := trimChars s.toList
  let signRest : ℚ × List Char :=
    match t with
    | '-' :: r => (-1, r)
    | '+' :: r => (1, r)
    | r => (1, r)
  match signRest.2.span (·.isDigit) with
  | (intPart, []) =>
      if intPart.isEmpty then none
      else some (signRest.1 * (digitsToNat intPart : ℚ))
  | (intPart, '.' :: fracRest) =>
      let fracSplit := fracRest.span (·.isDigit)
      if fracSplit.2.isEmpty ∧ (¬ intPart.isEmpty ∨ ¬ fracSplit.1.isEmpty) then
        some (signRest.1 * ((digitsToNat intPart : ℚ) +
          (digitsToNat fracSplit.1 : ℚ) / (10 ^ fracSplit.1.length)))
      else none
  | (_, _) => none

/-- Model of Python `float(v)` on a `PyVal`: numbers pass through, booleans
become 0/1, decimal strings parse, everything else raises
(`ValueError`/`TypeError`), modelled as `none`. -/
def pyFloat : PyVal → Option ℚ
  | .num q => some q
  | .bool b => some (if b then 1 else 0)
  | .str s => parseFloatString s
  | .null => none

/-- Model of the idiom `float(d.get(k) or 0)` used by the aggregator: a
missing key or a falsy value becomes `0`; otherwise the value is converted
with `float`, which can fail. -/
def pyFloatOr0 (v : Option PyVal) : Option ℚ :=
  match v with
  | none => some 0
  | some pv => if pyTruthy pv then pyFloat pv else some 0

/-- Round a rational to the nearest integer, ties to even — the rounding
Python 3 `round` uses. -/
def roundHalfEven (x : ℚ) : ℤ :=
  let f := ⌊x⌋
  let frac := x - (f : ℚ)
  if frac < 1/2 then f
  else if 1/2 < frac then f + 1
  else if f % 2 = 0 then f else f + 1

/-- Model of Python `round(x, 1)`: round to one decimal place, ties to
even. -/
def pyRound1 (x : ℚ) : ℚ :=
  (roundHalfEven (x * 10) : ℚ) / 10

example : pyRound1 (126/100) = 13/10 := by norm_num [pyRound1, roundHalfEven]
example : pyRound1 (125/100) = 12/10 := by norm_num [pyRound1, roundHalfEven]
example : pyRound1 (135/100) = 14/10 := by norm_num [pyRound1, roundHalfEven]
example : pyFloatOr0 (some (.str "abc")) = none := by
  simp [pyFloatOr0, pyTruthy, pyFloat, parseFloatString, trimChars]
example : pyFloatOr0 (some .null) = some 0 := by simp [pyFloatOr0, pyTruthy]
example : pyFloatOr0 none = some 0 := by simp [pyFloatOr0]

/-! Slicer metrics extractor (`slice_with_prusa.py`).

The regex searches over the slicer console output and the generated G-code
file are abstracted into their results: `GcodeScan` holds the outcome of
the two searches run on the G-code content (the weight comment and the
estimated-printing-time comment), `ConsoleScan` the outcome of the two
searches run on the combined stdout/stderr (the size line and the
fallback estimated-printing-time pattern). -/

/-- The three optional numeric groups of the estimated-printing-time
patterns, already passed through `int(group or 0)`: an absent group is 0. -/
structure TimeGroups where
  h : ℕ
  m : ℕ
  s : ℕ
  deriving DecidableEq, Repr

/-- Results of the two regex searches over the G-code file content:
the captured total-filament-used weight in grams (if the comment matched)
and the estimated-printing-time groups (if that comment matched). -/
structure GcodeScan where
  weight : Option ℚ
  timeG : Option TimeGroups
  deriving DecidableEq, Repr

/-- Results of the two regex searches over the combined console output:
the captured size triple in millimetres and the fallback
estimated-printing-time groups. -/
structure ConsoleScan where
  size : Option (ℚ × ℚ × ℚ)
  timeC : Option TimeGroups
  deriving DecidableEq, Repr

/-- One invocation of the external slicer: whether it exited with code 0,
whether the G-code file it was asked to produce exists afterwards, and the
scan results over its G-code content and console output. -/
structure RunResult where
  exitOk : Bool
  gcodeExists : Bool
  gscan : GcodeScan
  cscan : ConsoleScan
  deriving DecidableEq, Repr

/-- Abstract environment of one `slice_with_prusa` call: existence of the
input geometry file and of the shared `config.ini`, the configuration
values extracted from it, and the two slicer invocations.  `runWith` is
consulted only when `supportsEnabled` is true, exactly as the first slice
only happens then. -/
structure SliceEnv where
  fileExists : Bool
  configExists : Bool
  partName : String
  filamentCost : PyVal
  supportsEnabled : Bool
  slicerSettings : String
  runWith : RunResult
  runWithout : RunResult
  deriving DecidableEq, Repr

/-- Format of the reconstructed duration string: the joined non-zero
components, or `none` when all components are zero (in which case the
code leaves `print_time` untouched). -/
def formatTime (g : TimeGroups) : Option String :=
  if g.h > 0 ∨ g.m > 0 ∨ g.s > 0 then
    some (String.intercalate " "
      ((if g.h > 0 then [toString g.h ++ "h"] else []) ++
       (if g.m > 0 then [toString g.m ++ "m"] else []) ++
       (if g.s > 0 then [toString g.s ++ "s"] else [])))
  else none

/-- Warning printed by `extract_metrics` when the unconditional
`weight_match.group(1)` dereference raises and is caught. -/
def warnGcodeParse : String := "Warning: Error parsing G-code file"

/-- Warning printed by `extract_metrics` when the extracted weight is zero
because the weight comment was missing from an existing G-code file. -/
def warnZeroWeight : String := "Warning: Extracted weight is zero"

/-- The per-run metrics dictionary returned by `extract_metrics`. -/
structure ExtractedMetrics where
  dimensions_mm : Option (ℚ × ℚ × ℚ)
  weight_g : ℚ
  print_time : String
  deriving DecidableEq, Repr

/-- Embedding of `extract_metrics(combined_output, gcode_path)`.  The
G-code block assigns `weight_g` from the weight match unconditionally; a
missing match raises `AttributeError`, which the surrounding handler turns
into a warning, aborting the block before the G-code time lookup.  The
console output is then consulted for dimensions, and for the print time
only if it is still the sentinel.  Finally a second warning is printed
when the weight is zero because the comment was missing from an existing
G-code file. -/
def extract_metrics (gcodeExists : Bool) (g : GcodeScan) (c : ConsoleScan) :
    ExtractedMetrics × List String :=
  let gstep : ℚ × Option String × List String :=
    if gcodeExists then
      match g.weight with
      | some w => (w, g.timeG.bind formatTime, [])
      | none => (0, none, [warnGcodeParse])
    else (0, none, [])
  let printTime0 := gstep.2.1.getD "Unknown"
  let printTime :=
    if printTime0 = "Unknown" then (c.timeC.bind formatTime).getD "Unknown"
    else printTime0
  let zeroWarns :=
    if gstep.1 = 0 ∧ g.weight = none ∧ gcodeExists = true then [warnZeroWeight]
    else []
  (⟨c.size, gstep.1, printTime⟩, gstep.2.2 ++ zeroWarns)

/-- Embedding of the support-weight calculation: subtraction clamped at
zero, guarded by both weights being non-negative numbers (the
`isinstance` half of the guard is vacuous here since weights are always
rationals in the model). -/
def supportsWeight (total object : ℚ) : ℚ :=
  if 0 ≤ total ∧ 0 ≤ object then max 0 (total - object) else 0

/-- Warning printed when the support-weight guard fails. -/
def warnInvalidWeights : String := "WARNING: Could not calculate support weight"

/-- Warning printed when the configured cost per kilogram is not a
positive number. -/
def warnBadCost : String := "WARNING: Invalid filament cost per kg"

/-- Embedding of the price branch: `filament_cost_per_kg` must satisfy
`isinstance(v, (int, float)) and v > 0` (a Python `bool` is an `int`, so
`True` passes); then the price is `round(kg * cost, 1)`, else `0.0` with a
warning. -/
def priceCalc (cost : PyVal) (kg : ℚ) : ℚ × List String :=
  match cost with
  | .num c => if 0 < c then (pyRound1 (kg * c), []) else (0, [warnBadCost])
  | .bool b => if b then (pyRound1 (kg * 1), []) else (0, [warnBadCost])
  | _ => (0, [warnBadCost])

/-- Outcome of the first (with-supports) slice as used later: the initial
`total_weight_g`, the `print_time`, the dimensions, and the warnings the
extraction emitted.  When supports are disabled the first slice does not
happen and the metrics keep their initial values. -/
structure Phase1 where
  total0 : ℚ
  ptime : String
  dims1 : Option (ℚ × ℚ × ℚ)
  warns : List String
  deriving DecidableEq, Repr

/-- The with-supports half of `slice_with_prusa`, after its return-code
check has passed. -/
def phase1 (env : SliceEnv) : Phase1 :=
  if env.supportsEnabled then
    let p := extract_metrics env.runWith.gcodeExists env.runWith.gscan env.runWith.cscan
    ⟨p.1.weight_g, p.1.print_time, p.1.dimensions_mm, p.2⟩
  else ⟨0, "Unknown", none, []⟩

/-- Extraction result of the second (no-supports) slice. -/
def phase2Extract (env : SliceEnv) : ExtractedMetrics × List String :=
  extract_metrics env.runWithout.gcodeExists env.runWithout.gscan env.runWithout.cscan

/-- The raw `object_weight_g` taken from the no-supports slice. -/
def objectRaw (env : SliceEnv) : ℚ := (phase2Extract env).1.weight_g

/-- The raw `total_weight_g`: the with-supports weight when supports are
enabled, otherwise forced equal to the object weight. -/
def totalRaw (env : SliceEnv) : ℚ :=
  if env.supportsEnabled then (phase1 env).total0 else objectRaw env

/-- The `supports_weight_g` value: subtraction clamped at zero when
supports are enabled, else zero. -/
def supportsRaw (env : SliceEnv) : ℚ :=
  if env.supportsEnabled then supportsWeight (phase1 env).total0 (objectRaw env)
  else 0

/-- Warnings of the calculation section: the invalid-weight warning when
the guard of the support subtraction fails. -/
def calcWarnings (env : SliceEnv) : List String :=
  if env.supportsEnabled ∧ ¬ (0 ≤ (phase1 env).total0 ∧ 0 ≤ objectRaw env) then
    [warnInvalidWeights]
  else []

/-- The price and its warning, computed from the rounded total weight
converted to kilograms. -/
def priceOf (env : SliceEnv) : ℚ × List String :=
  priceCalc env.filamentCost (pyRound1 (totalRaw env) / 1000)

/-- The persisted metrics record.  Note that the gram fields keep their
raw (unrounded) values — the source rounds into local variables and the
kilogram fields only. -/
structure Metrics where
  part_name : String
  dimensions_mm : Option (ℚ × ℚ × ℚ)
  object_weight_g : ℚ
  supports_weight_g : ℚ
  total_weight_g : ℚ
  print_time : String
  price_egp : ℚ
  print_settings : String
  object_weight_kg : ℚ
  supports_weight_kg : ℚ
  total_weight_kg : ℚ
  deriving DecidableEq, Repr

/-- The metrics record built in the non-fatal path. -/
def buildMetrics (env : SliceEnv) : Metrics where
  part_name := env.partName
  dimensions_mm :=
    match (phase1 env).dims1 with
    | some d => some d
    | none => (phase2Extract env).1.dimensions_mm
  object_weight_g := objectRaw env
  supports_weight_g := supportsRaw env
  total_weight_g := totalRaw env
  print_time := (phase1 env).ptime
  price_egp := (priceOf env).1
  print_settings := env.slicerSettings
  object_weight_kg := pyRound1 (objectRaw env) / 1000
  supports_weight_kg := pyRound1 (supportsRaw env) / 1000
  total_weight_kg := pyRound1 (totalRaw env) / 1000

/-- All warnings printed in the non-fatal path, in program order. -/
def sliceWarnings (env : SliceEnv) : List String :=
  (phase1 env).warns ++ (phase2Extract env).2 ++ calcWarnings env ++ (priceOf env).2

/-- Result of one `slice_with_prusa` call: the metrics record (also the
content written to the stats file), or `none` on the fatal paths, plus the
warnings printed. -/
structure SliceOutput where
  record : Option Metrics
  warnings : List String
  deriving DecidableEq, Repr

/-- Embedding of `slice_with_prusa(step_file_path)`: missing input file,
missing config, or a non-zero slicer exit on either performed invocation
return `None` before any record is written; otherwise the record is built,
written to the stats file, and returned. -/
def slice_with_prusa (env : SliceEnv) : SliceOutput :=
  if ¬ env.fileExists then ⟨none, []⟩
  else if ¬ env.configExists then ⟨none, []⟩
  else if env.supportsEnabled ∧ ¬ env.runWith.exitOk then ⟨none, []⟩
  else if ¬ env.runWithout.exitOk then ⟨none, (phase1 env).warns⟩
  else ⟨some (buildMetrics env), sliceWarnings env⟩

/-! BOM aggregator (`generate_bom.py`). -/

/-- A persisted record as the aggregator sees it: the three fields the
aggregator consults, each `none` when the key is absent from the JSON
object (a present key holding JSON `null` is `some .null`). -/
structure StatsObj where
  part_name : Option PyVal
  total_weight_g : Option PyVal
  price_egp : Option PyVal
  deriving DecidableEq, Repr

/-- Parse outcome of one candidate stats file: `invalid` when
`json.load` raises `JSONDecodeError`, otherwise the parsed object
restricted to the fields the aggregator consults. -/
inductive ParseResult where
  | invalid
  | obj (part_name total_weight_g price_egp : Option PyVal)
  deriving DecidableEq, Repr

/-- Warning printed when a candidate file is not valid JSON. -/
def warnInvalidJson : String := "Warning: Invalid JSON"

/-- Warning printed when a candidate file lacks one of the three required
keys. -/
def warnMissingKeys : String := "Warning: missing required keys"

/-- Warning printed when the numeric conversion of the weight or price
raises. -/
def warnBadNumeric : String := "Warning: Invalid numeric data for weight or price"

/-- State of the aggregation loop: the collected records, the two running
totals, and the warnings printed so far. -/
structure AggState where
  parts : List StatsObj
  total_cost : ℚ
  total_weight : ℚ
  warnings : List String
  deriving DecidableEq, Repr

/-- Embedding of one iteration of the aggregation loop.  The record is
appended to `parts_data` before the numeric conversions run, so a record
whose price or weight fails to convert is already collected when the
exception is caught: the file is reported as skipped but its record stays
in the report, only its remaining contributions to the totals are lost. -/
def processStatsFile (st : AggState) (f : ParseResult) : AggState :=
  match f with
  | .invalid => ⟨st.parts, st.total_cost, st.total_weight, st.warnings ++ [warnInvalidJson]⟩
  | .obj n w p =>
    if n.isNone ∨ w.isNone ∨ p.isNone then
      ⟨st.parts, st.total_cost, st.total_weight, st.warnings ++ [warnMissingKeys]⟩
    else
      let parts := st.parts ++ [⟨n, w, p⟩]
      match pyFloatOr0 p with
      | none => ⟨parts, st.total_cost, st.total_weight, st.warnings ++ [warnBadNumeric]⟩
      | some pc =>
        match pyFloatOr0 w with
        | none => ⟨parts, st.total_cost + pc, st.total_weight, st.warnings ++ [warnBadNumeric]⟩
        | some wc => ⟨parts, st.total_cost + pc, st.total_weight + wc, st.warnings⟩

/-- The aggregation loop over all candidate files. -/
def aggregate (files : List ParseResult) : AggState :=
  files.foldl processStatsFile ⟨[], 0, 0, []⟩

/-- The sort key of a record: `x.get("part_name", "")`. -/
def partKey (r : StatsObj) : PyVal := r.part_name.getD (.str "")

/-- Model of Python `<=` between two sort keys, total over `PyVal` but
consulted by the sort only on comparable pairs (see `keyComparable`): for
two strings it is string order, for two numbers or booleans it is numeric
order with `True = 1`, `False = 0`.  The values on mixed-type pairs are an
arbitrary consistent extension, never reached under the comparability
guard. -/
def pyKeyLe : PyVal → PyVal → Bool
  | .null, _ => true
  | _, .null => false
  | .str x, .str y => decide (x ≤ y)
  | .str _, _ => false
  | _, .str _ => true
  | .num x, .num y => decide (x ≤ y)
  | .num x, .bool y => decide (x ≤ if y then 1 else 0)
  | .bool x, .num y => decide ((if x then 1 else 0 : ℚ) ≤ y)
  | .bool x, .bool y => decide ((if x then 1 else 0 : ℚ) ≤ if y then 1 else 0)

/-- Whether Python can order two keys at all: numbers and booleans are
mutually comparable, strings only with strings; any pair involving `None`
and any mixed string/number pair raises `TypeError`. -/
def keyComparable : PyVal → PyVal → Bool
  | .str _, .str _ => true
  | .num _, .num _ => true
  | .num _, .bool _ => true
  | .bool _, .num _ => true
  | .bool _, .bool _ => true
  | _, _ => false

/-- Whether sorting the collected records terminates without `TypeError`:
every pair of sort keys must be comparable. -/
def allKeysComparable (l : List StatsObj) : Bool :=
  l.all (fun a => l.all (fun b => keyComparable (partKey a) (partKey b)))

/-- The sort order on records induced by their part-name keys. -/
def recLe (a b : StatsObj) : Prop := pyKeyLe (partKey a) (partKey b) = true

instance : DecidableRel recLe := fun _ _ => instDecidableEqBool _ _

/-- Model of `parts_data.sort(key=...)`: Python sort is stable, so it is a
stable sort by the key order (insertion sort here).  CPython performs no
comparisons at all on fewer than two elements, so a lone record sorts
without error whatever its key; with two or more records every key gets
compared against another one (run detection walks consecutive pairs and
binary insertion compares against the sorted prefix), so an incomparable
pair of keys raises `TypeError`, which the surrounding handler of
`generate_bom` catches, modelled as `none`. -/
def sortRecords (l : List StatsObj) : Option (List StatsObj) :=
  if 2 ≤ l.length ∧ allKeysComparable l = false then none
  else some (List.insertionSort recLe l)

/-- The input of `generate_bom`, with the file system abstracted away: a
directory (listing the parse results of its `*_stats.json` files, in glob
order), a single `.json` file, a file without the `.json` extension, or a
path that is neither an existing directory nor an existing file. -/
inductive BomInput where
  | dir (files : List ParseResult)
  | jsonFile (f : ParseResult)
  | otherFile
  | missing
  deriving DecidableEq, Repr

/-- The candidate record files resolved from the input: the glob matches
for a directory, the file itself for a `.json` file, nothing otherwise. -/
def candidateFiles : BomInput → List ParseResult
  | .dir files => files
  | .jsonFile f => [f]
  | .otherFile => []
  | .missing => []

/-- The output of a successful `generate_bom` run: the report rows (the
sorted surviving records), the two totals, and whether the PDF document
was produced (its path is `None` otherwise). -/
structure BomOutput where
  rows : List StatsObj
  total_cost : ℚ
  total_weight : ℚ
  pdfGenerated : Bool
  deriving DecidableEq, Repr

/-- The aggregation-and-report phase shared by the directory and
single-file cases: parse every candidate, bail out with `None` when no
record survived, sort (a `TypeError` there is caught by the surrounding
handler and also yields `None`), then emit the CSV and (best-effort,
controlled by `pdfOk`) the PDF. -/
def runAggregation (pdfOk : Bool) (files : List ParseResult) : Option BomOutput :=
  let st := aggregate files
  if st.parts.isEmpty then none
  else
    match sortRecords st.parts with
    | none => none
    | some rows => some ⟨rows, st.total_cost, st.total_weight, pdfOk⟩

/-- Embedding of `generate_bom(stats_dir_or_file_path)`.  `pdfOk` abstracts
whether a document-rendering library is available and succeeds. -/
def generate_bom (pdfOk : Bool) (inp : BomInput) : Option BomOutput :=
  match inp with
  | .dir files => if files.isEmpty then none else runAggregation pdfOk files
  | .jsonFile f => runAggregation pdfOk [f]
  | .otherFile => none
  | .missing => none

/-! Characterization of the aggregation loop: each file's effect on the
state is independent of the state, so the loop is a fold of per-file
contributions. -/

/-- The record a candidate file contributes to `parts_data`: present iff
the file parses and has the three required keys. -/
def fileRecord : ParseResult → Option StatsObj
  | .invalid => none
  | .obj n w p =>
    if n.isNone ∨ w.isNone ∨ p.isNone then none else some ⟨n, w, p⟩

/-- The amount a candidate file adds to the running total cost. -/
def fileCost : ParseResult → ℚ
  | .invalid => 0
  | .obj n w p =>
    if n.isNone ∨ w.isNone ∨ p.isNone then 0 else (pyFloatOr0 p).getD 0

/-- The amount a candidate file adds to the running total weight: nothing
when the price conversion already raised. -/
def fileWeight : ParseResult → ℚ
  | .invalid => 0
  | .obj n w p =>
    if n.isNone ∨ w.isNone ∨ p.isNone then 0
    else
      match pyFloatOr0 p with
      | none => 0
      | some _ => (pyFloatOr0 w).getD 0

/-- The warnings a candidate file causes. -/
def fileWarnings : ParseResult → List String
  | .invalid => [warnInvalidJson]
  | .obj n w p =>
    if n.isNone ∨ w.isNone ∨ p.isNone then [warnMissingKeys]
    else
      match pyFloatOr0 p, pyFloatOr0 w with
      | none, _ => [warnBadNumeric]
      | some _, none => [warnBadNumeric]
      | some _, some _ => []

theorem processStatsFile_spec (st : AggState) (f : ParseResult) :
    processStatsFile st f =
      ⟨st.parts ++ (fileRecord f).toList, st.total_cost + fileCost f,
       st.total_weight + fileWeight f, st.warnings ++ fileWarnings f⟩ := by
  match f with
  | .invalid =>
    simp [processStatsFile, fileRecord, fileCost, fileWeight, fileWarnings]
  | .obj n w p =>
    by_cases hk : n = none ∨ w = none ∨ p = none
    · simp [processStatsFile, fileRecord, fileCost, fileWeight, fileWarnings,
        Option.isNone_iff_eq_none, hk]
    · match hp : pyFloatOr0 p with
      | none =>
        simp [processStatsFile, fileRecord, fileCost, fileWeight, fileWarnings,
          Option.isNone_iff_eq_none, hk, hp]
      | some pc =>
        match hw : pyFloatOr0 w with
        | none =>
          simp [processStatsFile, fileRecord, fileCost, fileWeight, fileWarnings,
            Option.isNone_iff_eq_none, hk, hp, hw]
        | some wc =>
          simp [processStatsFile, fileRecord, fileCost, fileWeight, fileWarnings,
            Option.isNone_iff_eq_none, hk, hp, hw]

theorem foldl_processStatsFile (files : List ParseResult) (st : AggState) :
    files.foldl processStatsFile st =
      ⟨st.parts ++ files.filterMap fileRecord,
       st.total_cost + (files.map fileCost).sum,
       st.total_weight + (files.map fileWeight).sum,
       st.warnings ++ files.flatMap fileWarnings⟩ := by
  induction files generalizing st with
  | nil => simp
  | cons f fs ih =>
    rw [List.foldl_cons, processStatsFile_spec, ih]
    match hr : fileRecord f with
    | none => simp [hr, List.filterMap_cons, add_assoc]
    | some r => simp [hr, List.filterMap_cons, add_assoc]

/-- The surviving records of a run over the given candidate files. -/
def survivors (files : List ParseResult) : List StatsObj :=
  files.filterMap fileRecord

theorem aggregate_spec (files : List ParseResult) :
    aggregate files =
      ⟨survivors files, (files.map fileCost).sum, (files.map fileWeight).sum,
       files.flatMap fileWarnings⟩ := by
  rw [aggregate, foldl_processStatsFile]
  simp [survivors]

/-! Order properties of the sort key comparison (on the consistent total
extension), and the shape of a successful aggregation run. -/

theorem pyKeyLe_total (a b : PyVal) : pyKeyLe a b = true ∨ pyKeyLe b a = true := by
  cases a <;> cases b <;> simp [pyKeyLe] <;> exact le_total _ _

theorem pyKeyLe_trans (a b c : PyVal) (h1 : pyKeyLe a b = true)
    (h2 : pyKeyLe b c = true) : pyKeyLe a c = true := by
  cases a <;> cases b <;> cases c <;> simp_all [pyKeyLe] <;> exact le_trans h1 h2

instance : IsTotal StatsObj recLe :=
  ⟨fun a b => pyKeyLe_total (partKey a) (partKey b)⟩

instance : IsTrans StatsObj recLe :=
  ⟨fun a b c => pyKeyLe_trans (partKey a) (partKey b) (partKey c)⟩

theorem sortRecords_perm {l l' : List StatsObj} (h : sortRecords l = some l') :
    l'.Perm l := by
  unfold sortRecords at h
  split at h
  · cases h
  · cases h
    exact List.perm_insertionSort recLe l

theorem sortRecords_sorted {l l' : List StatsObj} (h : sortRecords l = some l') :
    List.Sorted recLe l' := by
  unfold sortRecords at h
  split at h
  · cases h
  · cases h
    exact List.sorted_insertionSort recLe l

theorem sortRecords_eq_none_iff (l : List StatsObj) :
    sortRecords l = none ↔ 2 ≤ l.length ∧ allKeysComparable l = false := by
  unfold sortRecords
  split
  · rename_i h
    simp [h]
  · rename_i h
    simp [h]

/-- Shape of a successful aggregation-and-report run: the rows are a
permutation (the sort) of the surviving records and the totals are the
per-file contribution sums. -/
theorem runAggregation_some {pdfOk : Bool} {files : List ParseResult}
    {out : BomOutput} (h : runAggregation pdfOk files = some out) :
    out.rows.Perm (survivors files) ∧
    List.Sorted recLe out.rows ∧
    out.total_cost = (files.map fileCost).sum ∧
    out.total_weight = (files.map fileWeight).sum ∧
    out.pdfGenerated = pdfOk := by
  unfold runAggregation at h
  rw [aggregate_spec] at h
  simp only at h
  split at h
  · cases h
  · rename_i hne
    match hs : sortRecords (survivors files) with
    | none => rw [hs] at h; cases h
    | some rows =>
      rw [hs] at h
      cases h
      exact ⟨sortRecords_perm hs, sortRecords_sorted hs, rfl, rfl, rfl⟩

/-- The price a surviving record contributes to the running total cost:
`float(price or 0)`, with 0 when the conversion raises. -/
def recCost (r : StatsObj) : ℚ := (pyFloatOr0 r.price_egp).getD 0

/-- The weight a surviving record contributes to the running total weight:
nothing at all when the price conversion already raised, otherwise
`float(weight or 0)` with 0 when that conversion raises. -/
def recWeight (r : StatsObj) : ℚ :=
  match pyFloatOr0 r.price_egp with
  | none => 0
  | some _ => (pyFloatOr0 r.total_weight_g).getD 0

theorem fileCost_eq (f : ParseResult) :
    fileCost f = ((fileRecord f).map recCost).getD 0 := by
  match f with
  | .invalid => simp [fileCost, fileRecord]
  | .obj n w p =>
    by_cases hk : n = none ∨ w = none ∨ p = none
    · simp [fileCost, fileRecord, Option.isNone_iff_eq_none, hk]
    · simp [fileCost, fileRecord, Option.isNone_iff_eq_none, hk, recCost]

theorem fileWeight_eq (f : ParseResult) :
    fileWeight f = ((fileRecord f).map recWeight).getD 0 := by
  match f with
  | .invalid => simp [fileWeight, fileRecord]
  | .obj n w p =>
    by_cases hk : n = none ∨ w = none ∨ p = none
    · simp [fileWeight, fileRecord, Option.isNone_iff_eq_none, hk]
    · simp [fileWeight, fileRecord, Option.isNone_iff_eq_none, hk, recWeight]

theorem survivors_map_sum_cost (files : List ParseResult) :
    ((survivors files).map recCost).sum = (files.map fileCost).sum := by
  induction files with
  | nil => simp [survivors]
  | cons f fs ih =>
    rw [survivors, List.filterMap_cons]
    match hr : fileRecord f with
    | none =>
      simp only [List.map_cons, List.sum_cons, fileCost_eq, hr]
      simpa [survivors] using ih
    | some r =>
      simp only [List.map_cons, List.sum_cons, fileCost_eq, hr]
      rw [show (List.filterMap fileRecord fs).map recCost = (survivors fs).map recCost from rfl, ih]
      simp

theorem survivors_map_sum_weight (files : List ParseResult) :
    ((survivors files).map recWeight).sum = (files.map fileWeight).sum := by
  induction files with
  | nil => simp [survivors]
  | cons f fs ih =>
    rw [survivors, List.filterMap_cons]
    match hr : fileRecord f with
    | none =>
      simp only [List.map_cons, List.sum_cons, fileWeight_eq, hr]
      simpa [survivors] using ih
    | some r =>
      simp only [List.map_cons, List.sum_cons, fileWeight_eq, hr]
      rw [show (List.filterMap fileRecord fs).map recWeight = (survivors fs).map recWeight from rfl, ih]
      simp

/-! Shape of a non-fatal extractor run, and behaviour of the extraction
when the weight comment is missing. -/

theorem slice_nonfatal (env : SliceEnv) (h1 : env.fileExists = true)
    (h2 : env.configExists = true)
    (h3 : env.supportsEnabled = true → env.runWith.exitOk = true)
    (h4 : env.runWithout.exitOk = true) :
    slice_with_prusa env = ⟨some (buildMetrics env), sliceWarnings env⟩ := by
  unfold slice_with_prusa
  by_cases hs : env.supportsEnabled = true
  · simp [h1, h2, h3 hs, h4, hs]
  · simp [h1, h2, h4, hs]

theorem extract_weight_none (e : Bool) (g : GcodeScan) (c : ConsoleScan)
    (h : g.weight = none) : (extract_metrics e g c).1.weight_g = 0 := by
  cases e <;> simp [extract_metrics, h]

theorem extract_warn_missing (g : GcodeScan) (c : ConsoleScan)
    (h : g.weight = none) :
    (extract_metrics true g c).2 = [warnGcodeParse, warnZeroWeight] := by
  simp [extract_metrics, h]

/-! Claim theorems. -/

/-- C5: for every pair of extracted weights (t, o) with t ≥ o ≥ 0 the
computed support weight is exactly t - o, and for 0 ≤ t < o it clamps to
zero. -/
theorem c5_supports_subtraction_clamped (t o : ℚ) :
    (0 ≤ o → o ≤ t → supportsWeight t o = t - o) ∧
    (0 ≤ t → t < o → supportsWeight t o = 0) := by
  constructor
  · intro h1 h2
    have h0 : 0 ≤ t := le_trans h1 h2
    rw [supportsWeight, if_pos ⟨h0, h1⟩]
    exact max_eq_right (sub_nonneg.mpr h2)
  · intro h1 h2
    have h0 : 0 ≤ o := le_trans h1 (le_of_lt h2)
    rw [supportsWeight, if_pos ⟨h1, h0⟩]
    exact max_eq_left (sub_nonpos.mpr (le_of_lt h2))

theorem c5_witness :
    supportsWeight 7 3 = 7 - 3 ∧ supportsWeight 3 7 = 0 :=
  ⟨(c5_supports_subtraction_clamped 7 3).1 (by norm_num) (by norm_num),
   (c5_supports_subtraction_clamped 3 7).2 (by norm_num) (by norm_num)⟩

/-- C9: a missing input geometry file, a missing shared config file, or a
non-zero slicer exit on either performed invocation makes the extractor
report failure and produce no metrics record. -/
theorem c9_fatal_conditions (env : SliceEnv)
    (h : env.fileExists = false ∨ env.configExists = false ∨
         (env.supportsEnabled = true ∧ env.runWith.exitOk = false) ∨
         env.runWithout.exitOk = false) :
    (slice_with_prusa env).record = none := by
  unfold slice_with_prusa
  split
  · rfl
  · split
    · rfl
    · split
      · rfl
      · split
        · rfl
        · rcases h with h | h | ⟨ha, hb⟩ | h <;> simp_all

theorem c9_witness :
    (slice_with_prusa ⟨false, true, "part", .num 2500, false, "cfg",
       ⟨true, true, ⟨none, none⟩, ⟨none, none⟩⟩,
       ⟨true, true, ⟨none, none⟩, ⟨none, none⟩⟩⟩).record = none :=
  c9_fatal_conditions _ (Or.inl rfl)

/-- C10: when the G-code file exists but has no total-filament-used
comment, the unconditional dereference of the weight match aborts the
G-code block, so the print time is never taken from the G-code — it comes
only from the console fallback pattern or stays the sentinel, whatever
estimated-printing-time comment the G-code contains. -/
theorem c10_gcode_time_skipped (g : GcodeScan) (c : ConsoleScan)
    (h : g.weight = none) :
    (extract_metrics true g c).1.print_time =
      (c.timeC.bind formatTime).getD "Unknown" := by
  simp [extract_metrics, h]

theorem c10_witness :
    (extract_metrics true ⟨none, some ⟨2, 30, 0⟩⟩ ⟨none, none⟩).1.print_time
      = "Unknown" :=
  c10_gcode_time_skipped ⟨none, some ⟨2, 30, 0⟩⟩ ⟨none, none⟩ rfl

/-- Python test `isinstance(v, (int, float)) and v > 0` on the configured
cost value: positive numbers pass, and so does `True` (a Python `bool` is
an `int`). -/
def isPosNumber : PyVal → Bool
  | .num c => decide (0 < c)
  | .bool b => b
  | _ => false

/-- Concrete extractor environment refuting claim C1: supports disabled,
cost 10000 per kg, and an extracted weight of 1.26 g. -/
def cexEnvC1 : SliceEnv :=
  ⟨true, true, "part", .num 10000, false, "cfg",
   ⟨true, true, ⟨none, none⟩, ⟨none, none⟩⟩,
   ⟨true, true, ⟨some (126/100), none⟩, ⟨none, none⟩⟩⟩

/-- C1 counterexample: the persisted `total_weight_g` is the raw 1.26 g,
the cost per kg is the positive number 10000, yet the persisted price is
13.0, not round((1.26/1000)*10000, 1) = 12.6 — the price is computed from
the weight rounded to one decimal, which the persisted gram field is
not. -/
theorem c1_counterexample :
    (slice_with_prusa cexEnvC1).record.map Metrics.total_weight_g = some (126/100) ∧
    (slice_with_prusa cexEnvC1).record.map Metrics.price_egp = some 13 ∧
    pyRound1 (126/100 / 1000 * 10000) = 63/5 ∧ (13 : ℚ) ≠ 63/5 := by
  have h := slice_nonfatal cexEnvC1 rfl rfl (fun hc => by cases hc) rfl
  rw [h]
  refine ⟨?_, ?_, ?_, by norm_num⟩
  · simp [cexEnvC1, buildMetrics, totalRaw, objectRaw, phase2Extract, extract_metrics]
  · simp only [Option.map_some, buildMetrics]
    simp [cexEnvC1, priceOf, priceCalc, totalRaw, objectRaw, phase2Extract,
      extract_metrics]
    norm_num [pyRound1, roundHalfEven]
  · norm_num [pyRound1, roundHalfEven]

/-- C1 amended: when the configured cost per kg is a positive number `c`,
the persisted price equals `round((round(w, 1)/1000) * c, 1)` where `w` is
the persisted `total_weight_g` — the weight is rounded to one decimal
before the conversion to kilograms; when the cost is not a positive
number, the price is 0.0, a warning is raised, and the record is still
produced. -/
theorem c1_price_formula (env : SliceEnv) (c : ℚ)
    (h1 : env.fileExists = true) (h2 : env.configExists = true)
    (h3 : env.supportsEnabled = true → env.runWith.exitOk = true)
    (h4 : env.runWithout.exitOk = true) :
    (slice_with_prusa env).record = some (buildMetrics env) ∧
    (env.filamentCost = .num c → 0 < c →
      (buildMetrics env).price_egp =
        pyRound1 (pyRound1 (buildMetrics env).total_weight_g / 1000 * c)) ∧
    (isPosNumber env.filamentCost = false →
      (buildMetrics env).price_egp = 0 ∧
      warnBadCost ∈ (slice_with_prusa env).warnings) := by
  have h := slice_nonfatal env h1 h2 h3 h4
  rw [h]
  refine ⟨rfl, ?_, ?_⟩
  · intro hc hpos
    show (priceOf env).1 = _
    rw [priceOf, hc, priceCalc, if_pos hpos]
    rfl
  · intro hnp
    have hz : priceOf env = (0, [warnBadCost]) := by
      rw [priceOf]
      match hc : env.filamentCost with
      | .num q =>
        rw [hc] at hnp
        simp only [isPosNumber, decide_eq_false_iff_not, not_lt] at hnp
        rw [priceCalc, if_neg (not_lt.mpr hnp)]
      | .bool b =>
        rw [hc] at hnp
        simp only [isPosNumber] at hnp
        rw [priceCalc, hnp]
        simp
      | .str s => rfl
      | .null => rfl
    constructor
    · show (priceOf env).1 = 0
      rw [hz]
    · show warnBadCost ∈ sliceWarnings env
      rw [sliceWarnings, hz]
      simp

theorem c1_witness :
    (buildMetrics ⟨true, true, "part", .num 2500, false, "cfg",
       ⟨true, true, ⟨none, none⟩, ⟨none, none⟩⟩,
       ⟨true, true, ⟨some 10, none⟩, ⟨none, none⟩⟩⟩).price_egp =
      pyRound1 (pyRound1 (buildMetrics ⟨true, true, "part", .num 2500, false, "cfg",
       ⟨true, true, ⟨none, none⟩, ⟨none, none⟩⟩,
       ⟨true, true, ⟨some 10, none⟩, ⟨none, none⟩⟩⟩).total_weight_g / 1000 * 2500) :=
  (c1_price_formula _ 2500 rfl rfl (fun hc => by cases hc) rfl).2.1 rfl (by norm_num)

theorem supportsWeight_eq_zero_of_lt {t o : ℚ} (h : t < o) :
    supportsWeight t o = 0 := by
  rw [supportsWeight]
  split
  · exact max_eq_left (sub_nonpos.mpr (le_of_lt h))
  · rfl

/-- Concrete extractor environment refuting claim C2: supports enabled,
with-supports slice weighs 5 g, no-supports slice weighs 10 g. -/
def cexEnvC2 : SliceEnv :=
  ⟨true, true, "part", .num 2500, true, "cfg",
   ⟨true, true, ⟨some 5, none⟩, ⟨none, none⟩⟩,
   ⟨true, true, ⟨some 10, none⟩, ⟨none, none⟩⟩⟩

/-- C2 counterexample: with support generation enabled and a with-supports
weight below the no-supports weight, the persisted record has
total_weight_g = 5, object_weight_g = 10, supports_weight_g = 0 (the clamp
fires), so total ≠ object + supports in a way no rounding covers. -/
theorem c2_counterexample :
    cexEnvC2.supportsEnabled = true ∧
    (slice_with_prusa cexEnvC2).record.map Metrics.total_weight_g = some 5 ∧
    (slice_with_prusa cexEnvC2).record.map Metrics.object_weight_g = some 10 ∧
    (slice_with_prusa cexEnvC2).record.map Metrics.supports_weight_g = some 0 ∧
    (5 : ℚ) ≠ 10 + 0 := by
  have h := slice_nonfatal cexEnvC2 rfl rfl (fun _ => rfl) rfl
  rw [h]
  refine ⟨rfl, ?_, ?_, ?_, by norm_num⟩
  · simp [cexEnvC2, buildMetrics, totalRaw, phase1, extract_metrics]
  · simp [cexEnvC2, buildMetrics, objectRaw, phase2Extract, extract_metrics]
  · simp only [Option.map_some, buildMetrics]
    simp [cexEnvC2, supportsRaw, phase1, objectRaw, phase2Extract, extract_metrics,
      supportsWeight]
    norm_num

/-- C2 amended: with support generation enabled the persisted record
satisfies total_weight_g = object_weight_g + supports_weight_g exactly
whenever total ≥ object ≥ 0; when the extracted total is below the object
weight the support weight clamps to 0 and the identity fails.  With
supports disabled, supports_weight_g = 0 and total_weight_g =
object_weight_g. -/
theorem c2_weight_invariant (env : SliceEnv)
    (h1 : env.fileExists = true) (h2 : env.configExists = true)
    (h3 : env.supportsEnabled = true → env.runWith.exitOk = true)
    (h4 : env.runWithout.exitOk = true) :
    (slice_with_prusa env).record = some (buildMetrics env) ∧
    (env.supportsEnabled = true →
      (0 ≤ (buildMetrics env).object_weight_g →
       (buildMetrics env).object_weight_g ≤ (buildMetrics env).total_weight_g →
         (buildMetrics env).total_weight_g =
           (buildMetrics env).object_weight_g + (buildMetrics env).supports_weight_g) ∧
      ((buildMetrics env).total_weight_g < (buildMetrics env).object_weight_g →
         (buildMetrics env).supports_weight_g = 0)) ∧
    (env.supportsEnabled = false →
      (buildMetrics env).supports_weight_g = 0 ∧
      (buildMetrics env).total_weight_g = (buildMetrics env).object_weight_g) := by
  refine ⟨(slice_nonfatal env h1 h2 h3 h4) ▸ rfl, ?_, ?_⟩
  · intro hs
    have htot : (buildMetrics env).total_weight_g = (phase1 env).total0 := by
      show totalRaw env = _
      rw [totalRaw, if_pos hs]
    have hsup : (buildMetrics env).supports_weight_g =
        supportsWeight (phase1 env).total0 (objectRaw env) := by
      show supportsRaw env = _
      rw [supportsRaw, if_pos hs]
    constructor
    · intro ho hot
      have hobj : (buildMetrics env).object_weight_g = objectRaw env := rfl
      rw [htot] at hot
      rw [hobj] at ho hot
      rw [htot, hsup, hobj, supportsWeight, if_pos ⟨le_trans ho hot, ho⟩,
        max_eq_right (sub_nonneg.mpr hot)]
      ring
    · intro hlt
      rw [htot] at hlt
      rw [hsup]
      exact supportsWeight_eq_zero_of_lt hlt
  · intro hs
    constructor
    · show supportsRaw env = 0
      rw [supportsRaw, if_neg (by simp [hs])]
    · show totalRaw env = objectRaw env
      rw [totalRaw, if_neg (by simp [hs])]

theorem c2_witness :
    (buildMetrics ⟨true, true, "part", .num 2500, true, "cfg",
       ⟨true, true, ⟨some 10, none⟩, ⟨none, none⟩⟩,
       ⟨true, true, ⟨some 4, none⟩, ⟨none, none⟩⟩⟩).total_weight_g =
      (buildMetrics ⟨true, true, "part", .num 2500, true, "cfg",
       ⟨true, true, ⟨some 10, none⟩, ⟨none, none⟩⟩,
       ⟨true, true, ⟨some 4, none⟩, ⟨none, none⟩⟩⟩).object_weight_g +
      (buildMetrics ⟨true, true, "part", .num 2500, true, "cfg",
       ⟨true, true, ⟨some 10, none⟩, ⟨none, none⟩⟩,
       ⟨true, true, ⟨some 4, none⟩, ⟨none, none⟩⟩⟩).supports_weight_g :=
  ((c2_weight_invariant _ rfl rfl (fun _ => rfl) rfl).2.1 rfl).1
    (by norm_num [buildMetrics, objectRaw, phase2Extract, extract_metrics])
    (by norm_num [buildMetrics, objectRaw, totalRaw, phase1, phase2Extract,
      extract_metrics])

/-- Concrete extractor environment refuting claim C6: the slicer exits 0
but produces no G-code file, so no weight is extractable anywhere. -/
def cexEnvC6 : SliceEnv :=
  ⟨true, true, "part", .num 2500, false, "cfg",
   ⟨true, true, ⟨none, none⟩, ⟨none, none⟩⟩,
   ⟨true, false, ⟨none, none⟩, ⟨none, none⟩⟩⟩

/-- C6 counterexample: when the G-code file does not exist, the weight
defaults to 0.0 and the record is still produced — but no warning at all
is printed (both weight warnings are guarded by the G-code file
existing), contradicting the claim that a warning is always raised. -/
theorem c6_counterexample :
    (slice_with_prusa cexEnvC6).record.map Metrics.total_weight_g = some 0 ∧
    (slice_with_prusa cexEnvC6).record.map Metrics.object_weight_g = some 0 ∧
    (slice_with_prusa cexEnvC6).record.isSome = true ∧
    (slice_with_prusa cexEnvC6).warnings = [] := by
  have h := slice_nonfatal cexEnvC6 rfl rfl (fun hc => by cases hc) rfl
  rw [h]
  refine ⟨?_, ?_, rfl, ?_⟩
  · simp [cexEnvC6, buildMetrics, totalRaw, objectRaw, phase2Extract, extract_metrics]
  · simp [cexEnvC6, buildMetrics, objectRaw, phase2Extract, extract_metrics]
  · simp only [sliceWarnings]
    norm_num [cexEnvC6, phase1, phase2Extract, extract_metrics, calcWarnings,
      priceOf, priceCalc]

/-- C6 amended: an extraction failure for weight defaults that field to
0.0 and the record is still produced and persisted; a warning is reported
whenever the corresponding G-code file exists (the missing-comment case),
but when the G-code file itself is missing the weight defaults silently
with no warning. -/
theorem c6_weight_default (env : SliceEnv)
    (h1 : env.fileExists = true) (h2 : env.configExists = true)
    (h3 : env.supportsEnabled = true → env.runWith.exitOk = true)
    (h4 : env.runWithout.exitOk = true) :
    (slice_with_prusa env).record = some (buildMetrics env) ∧
    (env.supportsEnabled = true → env.runWith.gscan.weight = none →
       (buildMetrics env).total_weight_g = 0) ∧
    (env.runWithout.gscan.weight = none →
       (buildMetrics env).object_weight_g = 0) ∧
    (env.supportsEnabled = true → env.runWith.gscan.weight = none →
       env.runWith.gcodeExists = true →
       warnGcodeParse ∈ (slice_with_prusa env).warnings) ∧
    (env.runWithout.gscan.weight = none → env.runWithout.gcodeExists = true →
       warnGcodeParse ∈ (slice_with_prusa env).warnings) := by
  have h := slice_nonfatal env h1 h2 h3 h4
  refine ⟨h ▸ rfl, ?_, ?_, ?_, ?_⟩
  · intro hs hw
    show totalRaw env = 0
    have hp : (phase1 env).total0 =
        (extract_metrics env.runWith.gcodeExists env.runWith.gscan
          env.runWith.cscan).1.weight_g := by
      simp [phase1, hs]
    rw [totalRaw, if_pos hs, hp]
    exact extract_weight_none _ _ _ hw
  · intro hw
    show objectRaw env = 0
    rw [objectRaw, phase2Extract]
    exact extract_weight_none _ _ _ hw
  · intro hs hw hge
    rw [h]
    show warnGcodeParse ∈ sliceWarnings env
    have hp : (phase1 env).warns =
        (extract_metrics env.runWith.gcodeExists env.runWith.gscan
          env.runWith.cscan).2 := by
      simp [phase1, hs]
    rw [sliceWarnings, hp, hge, extract_warn_missing _ _ hw]
    simp
  · intro hw hge
    rw [h]
    show warnGcodeParse ∈ sliceWarnings env
    rw [sliceWarnings, phase2Extract, hge, extract_warn_missing _ _ hw]
    simp

theorem c6_witness :
    warnGcodeParse ∈ (slice_with_prusa ⟨true, true, "part", .num 2500, false, "cfg",
       ⟨true, true, ⟨none, none⟩, ⟨none, none⟩⟩,
       ⟨true, true, ⟨none, none⟩, ⟨none, none⟩⟩⟩).warnings :=
  (c6_weight_default _ rfl rfl (fun hc => by cases hc) rfl).2.2.2.2 rfl rfl

theorem runAggregation_none (pdfOk : Bool) (files : List ParseResult) :
    runAggregation pdfOk files = none ↔
      survivors files = [] ∨
      (2 ≤ (survivors files).length ∧
        allKeysComparable (survivors files) = false) := by
  unfold runAggregation
  rw [aggregate_spec]
  simp only
  by_cases he : survivors files = []
  · simp [he]
  · rw [if_neg (by simpa [List.isEmpty_iff] using he)]
    match hs : sortRecords (survivors files) with
    | none =>
      obtain ⟨h1, h2⟩ := (sortRecords_eq_none_iff _).mp hs
      simp [he, h1, h2]
    | some rows =>
      have hc : ¬ (2 ≤ (survivors files).length ∧
          allKeysComparable (survivors files) = false) := by
        intro hcond
        rw [(sortRecords_eq_none_iff _).mpr hcond] at hs
        cases hs
      simp [he, hc]

theorem generate_bom_some {pdfOk : Bool} {inp : BomInput} {out : BomOutput}
    (h : generate_bom pdfOk inp = some out) :
    runAggregation pdfOk (candidateFiles inp) = some out := by
  cases inp with
  | dir files =>
    by_cases he : files.isEmpty
    · simp [generate_bom, he] at h
    · simpa [generate_bom, he, candidateFiles] using h
  | jsonFile f => simpa [generate_bom, candidateFiles] using h
  | otherFile => simp [generate_bom] at h
  | missing => simp [generate_bom] at h

/-- C3 amended: the aggregator returns the no-output sentinel exactly when
there are no candidate files, when zero valid records survived, or when
at least two records survived and their part-name sort keys contain an
incomparable (mixed-type) pair — the sort then raises `TypeError`, caught
by the surrounding handler; a single surviving record sorts without any
comparison, whatever its key.  On every successful run the document flag
mirrors whether document generation succeeded, the CSV path always being
returned. -/
theorem c3_none_conditions (pdfOk : Bool) (inp : BomInput) :
    (generate_bom pdfOk inp = none ↔
      candidateFiles inp = [] ∨ survivors (candidateFiles inp) = [] ∨
      (2 ≤ (survivors (candidateFiles inp)).length ∧
        allKeysComparable (survivors (candidateFiles inp)) = false)) ∧
    (∀ out, generate_bom pdfOk inp = some out → out.pdfGenerated = pdfOk) := by
  constructor
  · cases inp with
    | dir files =>
      by_cases he : files.isEmpty
      · rw [List.isEmpty_iff] at he
        subst he
        simp [generate_bom, candidateFiles, survivors]
      · have hne : files ≠ [] := by simpa [List.isEmpty_iff] using he
        rw [generate_bom, if_neg (by simpa [List.isEmpty_iff] using he)]
        rw [runAggregation_none]
        simp [candidateFiles, hne]
    | jsonFile f =>
      rw [generate_bom, runAggregation_none]
      simp [candidateFiles]
    | otherFile => simp [generate_bom, candidateFiles, survivors]
    | missing => simp [generate_bom, candidateFiles, survivors]
  · intro out h
    exact (runAggregation_some (generate_bom_some h)).2.2.2.2

/-- Candidate files refuting claim C3: two records that both pass
validation but whose part names have mixed types (a number and a
string). -/
def cexFilesC3 : List ParseResult :=
  [.obj (some (.num 1)) (some (.num 1)) (some (.num 1)),
   .obj (some (.str "a")) (some (.num 1)) (some (.num 1))]

/-- C3 counterexample: a directory with two valid records whose part
names are a number and a string makes the part-name sort raise
`TypeError`, so `generate_bom` returns the no-output sentinel even though
candidate files and valid records exist. -/
theorem c3_counterexample :
    generate_bom true (.dir cexFilesC3) = none ∧
    candidateFiles (.dir cexFilesC3) ≠ [] ∧
    survivors (candidateFiles (.dir cexFilesC3)) ≠ [] := by
  refine ⟨?_, by simp [candidateFiles, cexFilesC3], ?_⟩
  · rw [generate_bom, if_neg (by simp [cexFilesC3])]
    rw [runAggregation_none]
    right
    constructor
    · simp [survivors, cexFilesC3, fileRecord]
    · simp [survivors, cexFilesC3, fileRecord, allKeysComparable, partKey,
        keyComparable]
  · simp [survivors, candidateFiles, cexFilesC3, fileRecord]

example :
    generate_bom true (.jsonFile (.obj (some .null) (some (.num 1))
        (some (.num 1)))) =
      some ⟨[⟨some .null, some (.num 1), some (.num 1)⟩], 1, 1, true⟩ := by
  have hrec : fileRecord (.obj (some .null) (some (.num 1)) (some (.num 1)))
      = some ⟨some .null, some (.num 1), some (.num 1)⟩ := by
    simp [fileRecord]
  have hcost : fileCost (.obj (some .null) (some (.num 1)) (some (.num 1)))
      = 1 := by
    norm_num [fileCost, pyFloatOr0, pyTruthy, pyFloat]
  have hweight : fileWeight (.obj (some .null) (some (.num 1)) (some (.num 1)))
      = 1 := by
    norm_num [fileWeight, pyFloatOr0, pyTruthy, pyFloat]
  have hsort : sortRecords [⟨some .null, some (.num 1), some (.num 1)⟩] =
      some [(⟨some .null, some (.num 1), some (.num 1)⟩ : StatsObj)] := by
    rw [sortRecords, if_neg (by norm_num)]
    rfl
  show runAggregation true [.obj (some .null) (some (.num 1)) (some (.num 1))]
      = _
  rw [runAggregation, aggregate_spec]
  simp only [survivors, List.filterMap_cons, List.filterMap_nil, hrec,
    List.map_cons, List.map_nil, List.sum_cons, List.sum_nil, hcost, hweight,
    Option.toList_some, List.nil_append, List.isEmpty_cons, hsort]
  norm_num

/-- C4: a candidate file that fails to parse, or lacks one of the three
required fields, is skipped with a warning and contributes nothing —
excluded from the report without aborting the run; a candidate whose
required fields are present but whose numeric weight/price value is
malformed is NOT skipped: its record is still appended and only the
failed conversions contribute zero to the totals (with a warning). -/
theorem c4_skip_and_include (st : AggState) (n w p : Option PyVal) (pc : ℚ) :
    ((processStatsFile st .invalid).parts = st.parts ∧
     (processStatsFile st .invalid).warnings = st.warnings ++ [warnInvalidJson]) ∧
    (n = none ∨ w = none ∨ p = none →
       (processStatsFile st (.obj n w p)).parts = st.parts ∧
       (processStatsFile st (.obj n w p)).warnings = st.warnings ++ [warnMissingKeys]) ∧
    (n ≠ none → w ≠ none → p ≠ none →
       (processStatsFile st (.obj n w p)).parts = st.parts ++ [⟨n, w, p⟩]) ∧
    (n ≠ none → w ≠ none → p ≠ none → pyFloatOr0 p = none →
       (processStatsFile st (.obj n w p)).total_cost = st.total_cost ∧
       (processStatsFile st (.obj n w p)).total_weight = st.total_weight ∧
       (processStatsFile st (.obj n w p)).warnings = st.warnings ++ [warnBadNumeric]) ∧
    (n ≠ none → w ≠ none → p ≠ none → pyFloatOr0 p = some pc → pyFloatOr0 w = none →
       (processStatsFile st (.obj n w p)).total_cost = st.total_cost + pc ∧
       (processStatsFile st (.obj n w p)).total_weight = st.total_weight ∧
       (processStatsFile st (.obj n w p)).warnings = st.warnings ++ [warnBadNumeric]) := by
  refine ⟨⟨by simp [processStatsFile], by simp [processStatsFile]⟩, ?_, ?_, ?_, ?_⟩
  · intro hk
    rw [processStatsFile_spec]
    constructor <;>
      simp [fileRecord, fileWarnings, Option.isNone_iff_eq_none, hk]
  · intro hn hw hp
    rw [processStatsFile_spec]
    simp [fileRecord, Option.isNone_iff_eq_none, hn, hw, hp]
  · intro hn hw hp hnum
    rw [processStatsFile_spec]
    refine ⟨?_, ?_, ?_⟩ <;>
      simp [fileCost, fileWeight, fileWarnings, Option.isNone_iff_eq_none,
        hn, hw, hp, hnum]
  · intro hn hw hp hnum hwnum
    rw [processStatsFile_spec]
    refine ⟨?_, ?_, ?_⟩ <;>
      simp [fileCost, fileWeight, fileWarnings, Option.isNone_iff_eq_none,
        hn, hw, hp, hnum, hwnum]

theorem c4_witness :
    (processStatsFile ⟨[], 0, 0, []⟩
        (.obj (some (.str "x")) (some (.num 10)) (some (.str "abc")))).parts =
      [] ++ [⟨some (.str "x"), some (.num 10), some (.str "abc")⟩] ∧
    (processStatsFile ⟨[], 0, 0, []⟩
        (.obj (some (.str "x")) (some (.num 10)) (some (.str "abc")))).total_cost = 0 ∧
    (processStatsFile ⟨[], 0, 0, []⟩
        (.obj (some (.str "x")) (some (.num 10)) (some (.str "abc")))).total_weight = 0 ∧
    (processStatsFile ⟨[], 0, 0, []⟩
        (.obj (some (.str "x")) (some (.num 10)) (some (.str "abc")))).warnings =
      [] ++ [warnBadNumeric] := by
  have habc : pyFloatOr0 (some (.str "abc")) = none := by
    simp [pyFloatOr0, pyTruthy, pyFloat, parseFloatString, trimChars]
  have h := c4_skip_and_include ⟨[], 0, 0, []⟩
    (some (.str "x")) (some (.num 10)) (some (.str "abc")) 0
  exact ⟨h.2.2.1 (by simp) (by simp) (by simp),
    (h.2.2.2.1 (by simp) (by simp) (by simp) habc).1,
    (h.2.2.2.1 (by simp) (by simp) (by simp) habc).2.1,
    (h.2.2.2.1 (by simp) (by simp) (by simp) habc).2.2⟩

/-- A concrete successful aggregation over one well-formed record file,
shared by several witnesses. -/
theorem singleGoodRun :
    generate_bom true (.jsonFile (.obj (some (.str "x")) (some (.num 10))
        (some (.num 25)))) =
      some ⟨[⟨some (.str "x"), some (.num 10), some (.num 25)⟩], 25, 10, true⟩ := by
  have hrec : fileRecord (.obj (some (.str "x")) (some (.num 10)) (some (.num 25)))
      = some ⟨some (.str "x"), some (.num 10), some (.num 25)⟩ := by
    simp [fileRecord]
  have hcost : fileCost (.obj (some (.str "x")) (some (.num 10)) (some (.num 25)))
      = 25 := by
    norm_num [fileCost, pyFloatOr0, pyTruthy, pyFloat]
  have hweight : fileWeight (.obj (some (.str "x")) (some (.num 10)) (some (.num 25)))
      = 10 := by
    norm_num [fileWeight, pyFloatOr0, pyTruthy, pyFloat]
  have hsort : sortRecords [⟨some (.str "x"), some (.num 10), some (.num 25)⟩] =
      some [(⟨some (.str "x"), some (.num 10), some (.num 25)⟩ : StatsObj)] := by
    rw [sortRecords, if_neg (by simp [allKeysComparable, partKey, keyComparable])]
    rfl
  show runAggregation true [.obj (some (.str "x")) (some (.num 10)) (some (.num 25))]
      = _
  rw [runAggregation, aggregate_spec]
  simp only [survivors, List.filterMap_cons, List.filterMap_nil, hrec,
    List.map_cons, List.map_nil, List.sum_cons, List.sum_nil, hcost, hweight,
    Option.toList_some, List.nil_append, List.isEmpty_cons, hsort]
  norm_num

theorem c3_witness :
    (⟨[⟨some (.str "x"), some (.num 10), some (.num 25)⟩], 25, 10, true⟩
      : BomOutput).pdfGenerated = true :=
  (c3_none_conditions true (.jsonFile (.obj (some (.str "x")) (some (.num 10))
    (some (.num 25))))).2 _ singleGoodRun

/-- C7 amended: on every successful aggregation the reported total cost is
the sum over the report rows of `float(price or 0)` with a failed
conversion contributing 0; the reported total weight is the sum over the
rows of `float(weight or 0)` except that a row whose PRICE fails numeric
conversion contributes 0 to the weight total as well (the exception skips
the rest of that record's accumulation), even when its weight is a valid
number. -/
theorem c7_totals (pdfOk : Bool) (inp : BomInput) (out : BomOutput)
    (h : generate_bom pdfOk inp = some out) :
    out.total_cost = (out.rows.map recCost).sum ∧
    out.total_weight = (out.rows.map recWeight).sum := by
  have hr := runAggregation_some (generate_bom_some h)
  obtain ⟨hperm, _, hcost, hweight, _⟩ := hr
  constructor
  · rw [hcost, ← survivors_map_sum_cost]
    exact ((hperm.map recCost).sum_eq).symm
  · rw [hweight, ← survivors_map_sum_weight]
    exact ((hperm.map recWeight).sum_eq).symm

theorem c7_witness :
    (⟨[⟨some (.str "x"), some (.num 10), some (.num 25)⟩], 25, 10, true⟩
        : BomOutput).total_cost =
      ([⟨some (.str "x"), some (.num 10), some (.num 25)⟩].map recCost).sum ∧
    (⟨[⟨some (.str "x"), some (.num 10), some (.num 25)⟩], 25, 10, true⟩
        : BomOutput).total_weight =
      ([⟨some (.str "x"), some (.num 10), some (.num 25)⟩].map recWeight).sum :=
  c7_totals true _ _ singleGoodRun

/-- Modelled from the words of claim C7: the weight a surviving record
contributes to the claimed total — its numeric `total_weight_g`, a
missing or null value contributing 0. -/
def claimedWeightContribution (r : StatsObj) : ℚ :=
  match r.total_weight_g with
  | some (.num q) => q
  | _ => 0

/-- C7 counterexample: a surviving record with the valid numeric weight 10
but a malformed price string is included in the report, yet the reported
total weight is 0, not the claimed sum 10 — the price exception also
discards the record's weight contribution. -/
theorem c7_counterexample :
    generate_bom true (.jsonFile (.obj (some (.str "x")) (some (.num 10))
        (some (.str "abc")))) =
      some ⟨[⟨some (.str "x"), some (.num 10), some (.str "abc")⟩], 0, 0, true⟩ ∧
    ([⟨some (.str "x"), some (.num 10), some (.str "abc")⟩].map
        claimedWeightContribution).sum = 10 ∧
    (0 : ℚ) ≠ 10 := by
  refine ⟨?_, by norm_num [claimedWeightContribution], by norm_num⟩
  have habc : pyFloatOr0 (some (.str "abc")) = none := by
    simp [pyFloatOr0, pyTruthy, pyFloat, parseFloatString, trimChars]
  have hrec : fileRecord (.obj (some (.str "x")) (some (.num 10)) (some (.str "abc")))
      = some ⟨some (.str "x"), some (.num 10), some (.str "abc")⟩ := by
    simp [fileRecord]
  have hcost : fileCost (.obj (some (.str "x")) (some (.num 10)) (some (.str "abc")))
      = 0 := by
    simp [fileCost, habc]
  have hweight : fileWeight (.obj (some (.str "x")) (some (.num 10)) (some (.str "abc")))
      = 0 := by
    simp [fileWeight, habc]
  have hsort : sortRecords [⟨some (.str "x"), some (.num 10), some (.str "abc")⟩] =
      some [(⟨some (.str "x"), some (.num 10), some (.str "abc")⟩ : StatsObj)] := by
    rw [sortRecords, if_neg (by simp [allKeysComparable, partKey, keyComparable])]
    rfl
  show runAggregation true [.obj (some (.str "x")) (some (.num 10)) (some (.str "abc"))]
      = _
  rw [runAggregation, aggregate_spec]
  simp only [survivors, List.filterMap_cons, List.filterMap_nil, hrec,
    List.map_cons, List.map_nil, List.sum_cons, List.sum_nil, hcost, hweight,
    Option.toList_some, List.nil_append, List.isEmpty_cons, hsort]
  norm_num

/-- Whether a record's sort key is a string (an absent `part_name`
defaults to the empty string, hence also a string key). -/
def isStrKey (r : StatsObj) : Bool :=
  match partKey r with
  | .str _ => true
  | _ => false

/-- The string value of a record's sort key (empty for non-string keys,
which `c8_sorted_by_name` excludes by hypothesis). -/
def keyStr (r : StatsObj) : String :=
  match partKey r with
  | .str s => s
  | _ => ""

theorem recLe_keyStr {a b : StatsObj} (hab : recLe a b)
    (ha : isStrKey a = true) (hb : isStrKey b = true) :
    keyStr a ≤ keyStr b := by
  unfold recLe at hab
  unfold isStrKey at ha hb
  unfold keyStr
  match hka : partKey a, hkb : partKey b with
  | .str x, .str y =>
    rw [hka, hkb] at hab
    simpa [pyKeyLe] using hab
  | .str _, .num _ => rw [hkb] at hb; cases hb
  | .str _, .bool _ => rw [hkb] at hb; cases hb
  | .str _, .null => rw [hkb] at hb; cases hb
  | .num _, _ => rw [hka] at ha; cases ha
  | .bool _, _ => rw [hka] at ha; cases ha
  | .null, _ => rw [hka] at ha; cases ha

theorem sorted_recLe_imp_keyStr {l : List StatsObj} (h : List.Sorted recLe l)
    (hs : ∀ r ∈ l, isStrKey r = true) :
    List.Sorted (fun a b => keyStr a ≤ keyStr b) l := by
  induction l with
  | nil => exact List.sorted_nil
  | cons a t ih =>
    rw [List.sorted_cons] at h ⊢
    exact ⟨fun b hb => recLe_keyStr (h.1 b hb) (hs a (by simp))
        (hs b (by simp [hb])),
      ih h.2 (fun r hr => hs r (by simp [hr]))⟩

/-- C8: on every successful aggregation whose surviving records all carry
string part names (the only case in which Python's sort does not raise),
the report rows are sorted by part name in ascending string order, an
absent name defaulting to the empty string so unnamed parts sort
first. -/
theorem c8_sorted_by_name (pdfOk : Bool) (inp : BomInput) (out : BomOutput)
    (h : generate_bom pdfOk inp = some out)
    (hs : ∀ r ∈ out.rows, isStrKey r = true) :
    List.Sorted (fun a b => keyStr a ≤ keyStr b) out.rows :=
  sorted_recLe_imp_keyStr (runAggregation_some (generate_bom_some h)).2.1 hs

theorem c8_witness :
    generate_bom true (.dir
        [.obj (some (.str "b")) (some (.num 1)) (some (.num 2)),
         .obj (some (.str "a")) (some (.num 1)) (some (.num 2)),
         .obj (some (.str "")) (some (.num 1)) (some (.num 2))]) =
      some ⟨[⟨some (.str ""), some (.num 1), some (.num 2)⟩,
             ⟨some (.str "a"), some (.num 1), some (.num 2)⟩,
             ⟨some (.str "b"), some (.num 1), some (.num 2)⟩], 6, 3, true⟩ ∧
    List.Sorted (fun a b => keyStr a ≤ keyStr b)
      [(⟨some (.str ""), some (.num 1), some (.num 2)⟩ : StatsObj),
       ⟨some (.str "a"), some (.num 1), some (.num 2)⟩,
       ⟨some (.str "b"), some (.num 1), some (.num 2)⟩] := by
  have hgen : generate_bom true (.dir
      [.obj (some (.str "b")) (some (.num 1)) (some (.num 2)),
       .obj (some (.str "a")) (some (.num 1)) (some (.num 2)),
       .obj (some (.str "")) (some (.num 1)) (some (.num 2))]) =
      some ⟨[⟨some (.str ""), some (.num 1), some (.num 2)⟩,
             ⟨some (.str "a"), some (.num 1), some (.num 2)⟩,
             ⟨some (.str "b"), some (.num 1), some (.num 2)⟩], 6, 3, true⟩ := by
    have hba : ¬ ("b" ≤ "a") := by simp; decide
    have hbe : ¬ ("b" ≤ "") := by simp; decide
    have hae : ¬ ("a" ≤ "") := by simp; decide
    have hsort : sortRecords
        [⟨some (.str "b"), some (.num 1), some (.num 2)⟩,
         ⟨some (.str "a"), some (.num 1), some (.num 2)⟩,
         ⟨some (.str ""), some (.num 1), some (.num 2)⟩] =
        some [(⟨some (.str ""), some (.num 1), some (.num 2)⟩ : StatsObj),
              ⟨some (.str "a"), some (.num 1), some (.num 2)⟩,
              ⟨some (.str "b"), some (.num 1), some (.num 2)⟩] := by
      rw [sortRecords, if_neg (by simp [allKeysComparable, partKey, keyComparable])]
      simp [List.insertionSort, List.orderedInsert, recLe, partKey, pyKeyLe,
        hba, hbe, hae]
    rw [show generate_bom true (.dir
        [.obj (some (.str "b")) (some (.num 1)) (some (.num 2)),
         .obj (some (.str "a")) (some (.num 1)) (some (.num 2)),
         .obj (some (.str "")) (some (.num 1)) (some (.num 2))]) =
      runAggregation true
        [.obj (some (.str "b")) (some (.num 1)) (some (.num 2)),
         .obj (some (.str "a")) (some (.num 1)) (some (.num 2)),
         .obj (some (.str "")) (some (.num 1)) (some (.num 2))] from rfl]
    rw [runAggregation, aggregate_spec]
    simp only [survivors, List.filterMap_cons, List.filterMap_nil, fileRecord,
      List.map_cons, List.map_nil, List.sum_cons, List.sum_nil, fileCost,
      fileWeight, Option.isNone_some, Option.toList_some, List.nil_append]
    norm_num [pyFloatOr0, pyTruthy, pyFloat, hsort]
  exact ⟨hgen, c8_sorted_by_name true _ _ hgen
    (by intro r hr; simp at hr; rcases hr with h | h | h <;> subst h <;> rfl)⟩
